import Mathlib

/-
Verification of the Spark driver integration (sentry_sdk/integrations/spark/spark_driver.py).

The Python module is shallowly embedded below.  Python dicts (the local-property
store, the breadcrumb `data` mapping, and the `user` / `tags` / `extra` sections
of an event) become insertion-ordered association lists over `String` keys.
Exceptions become `Except` / explicit outcome types.  Mutation of the event and
of the bridge state (registered listeners, installed event processors, property
store) becomes explicit state passing.
-/

set_option autoImplicit false

namespace SparkDriver

/-! ## Insertion-ordered dictionaries (Python `dict` semantics) -/

/-- `d[k]` as an `Option`: first binding of `k` in the association list. -/
def dictFind {α : Type} : List (String × α) → String → Option α
  | [], _ => none
  | (k', v) :: rest, k => if k' = k then some v else dictFind rest k

/-- `d[k] = v`: replace the binding in place if `k` is present, otherwise
append it at the end (Python dicts keep insertion order). -/
def dictSet {α : Type} : List (String × α) → String → α → List (String × α)
  | [], k, v => [(k, v)]
  | (k', v') :: rest, k, v =>
      if k' = k then (k, v) :: rest else (k', v') :: dictSet rest k v

/-- `d.setdefault(k, v)`: insert `k ↦ v` only when `k` is absent. -/
def setdefault {α : Type} (d : List (String × α)) (k : String) (v : α) :
    List (String × α) :=
  match dictFind d k with
  | some _ => d
  | none => d ++ [(k, v)]

/-! ## Breadcrumbs

`sentry_sdk.add_breadcrumb(level=…, message=…, data=…)`.  Breadcrumb data
values are either Java/Python strings (`jobResult.toString()`, `name()`,
`failureReason().get()`) or integers (`attemptId()`). -/

inductive DataVal : Type
  | str (v : String)
  | nat (v : Nat)
  deriving DecidableEq, Repr

structure Breadcrumb : Type where
  level : String
  message : String
  data : List (String × DataVal)
  deriving DecidableEq, Repr

/-! ## SentryListener.onJobEnd -/

/-- The fields of the `jobEnd` callback argument that the handler reads:
`jobEnd.jobId()` and `jobEnd.jobResult().toString()`. -/
structure JobEndEvent : Type where
  jobId : Nat
  jobResult : String
  deriving DecidableEq, Repr

/-- `SentryListener.onJobEnd`: the list of breadcrumbs the handler emits. -/
def onJobEnd (e : JobEndEvent) : List Breadcrumb :=
  let data : List (String × DataVal) := [("result", .str e.jobResult)]
  if e.jobResult = "JobSucceeded" then
    [{ level := "info"
       message := "Job " ++ toString e.jobId ++ " Ended"
       data := data }]
  else
    [{ level := "warning"
       message := "Job " ++ toString e.jobId ++ " Failed"
       data := data }]

/-! ## SentryListener.onStageCompleted

`stage_info.failureReason().get()` crosses the py4j bridge; its outcome is one
of: a reason string; a `Py4JJavaError` wrapping the `NoSuchElementException`
raised by `.get()` on an empty Scala `Option` (the well-known empty-optional
signal); a `Py4JJavaError` wrapping some other JVM-side exception; or a
failure of the bridge itself (for example `Py4JNetworkError`), which is not a
`Py4JJavaError`. -/

inductive ReasonRead : Type
  | ok (reason : String)
  | noSuchElement
  | otherJavaError
  | bridgeError
  deriving DecidableEq, Repr

/-- Membership of the exception in the `Py4JJavaError` class, which is the
class named by the handler's `except` clause. -/
def isPy4JJavaError : ReasonRead → Bool
  | .noSuchElement => true
  | .otherJavaError => true
  | _ => false

/-- The fields of `stageCompleted.stageInfo()` that the handler reads, with the
outcome of the fallible `failureReason().get()` read. -/
structure StageInfo : Type where
  stageId : Nat
  attemptId : Nat
  name : String
  failureReasonRead : ReasonRead
  deriving DecidableEq, Repr

/-- `SentryListener.onStageCompleted`. `Except.error` means an exception
escapes the handler (no breadcrumb is emitted); `Except.ok bs` means the
handler returns normally after emitting the breadcrumbs `bs`. -/
def onStageCompleted (si : StageInfo) : Except ReasonRead (List Breadcrumb) :=
  let data : List (String × DataVal) :=
    [("attemptId", .nat si.attemptId), ("name", .str si.name)]
  match si.failureReasonRead with
  | .ok r =>
      .ok [{ level := "warning"
             message := "Stage " ++ toString si.stageId ++ " Failed"
             data := dictSet data "reason" (.str r) }]
  | exc =>
      if isPy4JJavaError exc then
        .ok [{ level := "info"
               message := "Stage " ++ toString si.stageId ++ " Completed"
               data := data }]
      else
        .error exc

/-! ## _set_app_properties

Reads `SparkContext._active_spark_context`; when a context is active, performs
two `setLocalProperty` writes carrying `appName` and `applicationId`.  The
local-property store is a string-keyed dict with overwrite semantics. -/

structure AppInfo : Type where
  appName : String
  applicationId : String
  deriving DecidableEq, Repr

abbrev PropStore : Type := List (String × String)

/-- `SparkContext.setLocalProperty(key, value)`. -/
def setLocalProperty (st : PropStore) (k v : String) : PropStore :=
  dictSet st k v

/-- `_set_app_properties()`: `active` is `SparkContext._active_spark_context`
(`none` when no context is active). -/
def set_app_properties (active : Option AppInfo) (st : PropStore) : PropStore :=
  match active with
  | none => st
  | some c =>
      setLocalProperty (setLocalProperty st "sentry_app_name" c.appName)
        "sentry_application_id" c.applicationId

/-! ## _activate_integration and _patch_spark_context_init

The instrumentation side effects are made explicit: the number of
`SentryListener`s registered on the context via `addSparkListener`, the
local-property store, and the number of event processors installed on the
isolation scope via `add_event_processor`. -/

structure BridgeState : Type where
  listeners : Nat
  props : PropStore
  processors : Nat
  deriving DecidableEq, Repr

/-- `_start_sentry_listener(sc)`: constructs a fresh `SentryListener` and
unconditionally registers it with `sc._jsc.sc().addSparkListener`. -/
def start_sentry_listener (st : BridgeState) : BridgeState :=
  { st with listeners := st.listeners + 1 }

/-- `_add_event_processor(sc)`: unconditionally registers `process_event` on
the isolation scope. -/
def add_event_processor (st : BridgeState) : BridgeState :=
  { st with processors := st.processors + 1 }

/-- `_activate_integration(sc)`: listener registration, then property
propagation (which reads the active context), then event-processor
installation.  No guard of any kind is present in the source. -/
def activate_integration (active : Option AppInfo) (st : BridgeState) :
    BridgeState :=
  let st1 := start_sentry_listener st
  let st2 := { st1 with props := set_app_properties active st1.props }
  add_event_processor st2

/-- `_sentry_patched_spark_context_init` (the replacement for
`SparkContext._do_init`).  `origResult` is the outcome of the call to the
saved original `_do_init` (an exception or a return value); `activate` is the
outcome of `_activate_integration(self)` from the state reached after the
original initialization.  The `ensure_integration_enabled` decorator makes the
wrapper call only the original when the integration is disabled. -/
def sentry_patched_spark_context_init (integrationEnabled : Bool)
    (origResult : Except String (Option String))
    (activate : BridgeState → Except String BridgeState) (st : BridgeState) :
    Except String (Option String × BridgeState) :=
  if integrationEnabled then
    match origResult with
    | .error e => .error e
    | .ok rv =>
        match activate st with
        | .error e => .error e
        | .ok st' => .ok (rv, st')
  else
    match origResult with
    | .error e => .error e
    | .ok rv => .ok (rv, st)

/-! ## The event processor `process_event`

The processor runs inside `capture_internal_exceptions()`: any exception
raised in the block is swallowed and control falls through to the trailing
`return event`, so the event is returned in whatever state the dicts had
reached.  Each session-attribute access (`sc.sparkUser()`, `sc._conf.get(…)`,
`sc.version`, …) may raise, so each is embedded as an `Except String String`
outcome.  Python evaluation order is preserved: in
`event.setdefault("user", {}).setdefault("id", sc.sparkUser())` the outer
`setdefault("user", {})` mutates the event before `sc.sparkUser()` is
evaluated. -/

structure SessionReads : Type where
  sparkUser : Except String String
  executorId : Except String String
  deployMode : Except String String
  driverHost : Except String String
  driverPort : Except String String
  version : Except String String
  appName : Except String String
  applicationId : Except String String
  master : Except String String
  sparkHome : Except String String
  uiWebUrl : Except String String
  deriving Repr

abbrev EventDict : Type := List (String × String)

/-- The sections of the Sentry event that `process_event` touches.  `none`
models an absent top-level key. -/
structure SparkEvent : Type where
  user : Option EventDict
  tags : Option EventDict
  extra : Option EventDict
  deriving DecidableEq, Repr

/-- The eight `event["tags"].setdefault(key, read)` statements that follow the
initial `event.setdefault("tags", {}).setdefault("executor.id", …)` one, in
source order. -/
def tagSteps (sc : SessionReads) : List (String × Except String String) :=
  [("spark-submit.deployMode", sc.deployMode),
   ("driver.host", sc.driverHost),
   ("driver.port", sc.driverPort),
   ("spark_version", sc.version),
   ("app_name", sc.appName),
   ("application_id", sc.applicationId),
   ("master", sc.master),
   ("spark_home", sc.sparkHome)]

/-- Runs the tag statements in order; stops at the first read that raises.
Returns the tags dict reached and whether a read raised. -/
def applyTagSteps : List (String × Except String String) → EventDict →
    EventDict × Bool
  | [], t => (t, false)
  | (_, .error _) :: _, t => (t, true)
  | (k, .ok v) :: rest, t => applyTagSteps rest (setdefault t k v)

/-- The body of the `with capture_internal_exceptions()` block after the two
early-return guards: enrichment with explicit stop-at-first-raise state. -/
def enrich_event (sc : SessionReads) (e0 : SparkEvent) : SparkEvent :=
  let u0 := e0.user.getD []
  let e1 := { e0 with user := some u0 }
  match sc.sparkUser with
  | .error _ => e1
  | .ok uid =>
      let e2 := { e1 with user := some (setdefault u0 "id" uid) }
      let t0 := e2.tags.getD []
      let e3 := { e2 with tags := some t0 }
      match sc.executorId with
      | .error _ => e3
      | .ok exid =>
          let t1 := setdefault t0 "executor.id" exid
          let e4 := { e3 with tags := some t1 }
          match applyTagSteps (tagSteps sc) t1 with
          | (t2, aborted) =>
              let e5 := { e4 with tags := some t2 }
              if aborted then e5
              else
                let x0 := e5.extra.getD []
                let e6 := { e5 with extra := some x0 }
                match sc.uiWebUrl with
                | .error _ => e6
                | .ok w =>
                    { e6 with extra := some (setdefault x0 "web_url" w) }

/-- `process_event(event, hint)`.  `integrationEnabled` is the
`get_integration(SparkIntegration) is None` test, `hasActiveContext` the
`sc._active_spark_context is None` test.  The Python signature is
`Optional[Event]`, hence the `Option` result; every path executes a
`return event`. -/
def process_event (integrationEnabled : Bool) (hasActiveContext : Bool)
    (sc : SessionReads) (event : SparkEvent) : Option SparkEvent :=
  if integrationEnabled = false then some event
  else if hasActiveContext = false then some event
  else some (enrich_event sc event)

/-! ## Sample values used by the concrete witnesses -/

/-- A session every read of which raises (context torn down). -/
def sessionAllFail : SessionReads :=
  { sparkUser := .error "gone", executorId := .error "gone"
    deployMode := .error "gone", driverHost := .error "gone"
    driverPort := .error "gone", version := .error "gone"
    appName := .error "gone", applicationId := .error "gone"
    master := .error "gone", sparkHome := .error "gone"
    uiWebUrl := .error "gone" }

/-- A fully healthy session whose application name is `Y`. -/
def sessionY : SessionReads :=
  { sparkUser := .ok "spark", executorId := .ok "driver"
    deployMode := .ok "client", driverHost := .ok "localhost"
    driverPort := .ok "33333", version := .ok "3.5.0"
    appName := .ok "Y", applicationId := .ok "app-42"
    master := .ok "local", sparkHome := .ok "/opt/spark"
    uiWebUrl := .ok "http://localhost:4040" }

/-- A session whose user read succeeds but whose first conf read raises. -/
def sessionUserOnly : SessionReads :=
  { sessionAllFail with sparkUser := .ok "alice" }

/-- An event that already carries the tag `app_name ↦ X`. -/
def eventAppNameX : SparkEvent :=
  { user := none, tags := some [("app_name", "X")], extra := none }

/-! ## Dictionary lemmas -/

theorem dictFind_append_left {α : Type} {d : List (String × α)} {k : String}
    {v : α} (h : dictFind d k = some v) (l : List (String × α)) :
    dictFind (d ++ l) k = some v := by
  induction d with
  | nil => simp [dictFind] at h
  | cons p rest ih =>
      obtain ⟨k', v'⟩ := p
      by_cases hk : k' = k
      · simpa [dictFind, hk] using h
      · simp only [dictFind, hk, if_false, List.cons_append] at h ⊢
        exact ih h

/-- A `dictSet` targeting another key does not change what `dictFind` sees. -/
theorem dictFind_dictSet_of_ne {α : Type} (d : List (String × α))
    {k k' : String} (v' : α) (hne : k ≠ k') :
    dictFind (dictSet d k' v') k = dictFind d k := by
  have hne' : ¬k' = k := fun h => hne h.symm
  induction d with
  | nil => simp [dictSet, dictFind, hne']
  | cons p rest ih =>
      obtain ⟨k0, v0⟩ := p
      by_cases h0 : k0 = k'
      · simp [dictSet, dictFind, h0, hne']
      · simp [dictSet, dictFind, h0, ih]

theorem dictFind_dictSet_self {α : Type} (d : List (String × α)) (k : String)
    (v : α) : dictFind (dictSet d k v) k = some v := by
  induction d with
  | nil => simp [dictSet, dictFind]
  | cons p rest ih =>
      obtain ⟨k0, v0⟩ := p
      by_cases h0 : k0 = k
      · simp [dictSet, dictFind, h0]
      · simp [dictSet, dictFind, h0, ih]

/-- Overwriting the same key twice is the same as overwriting it once. -/
theorem dictSet_dictSet_self {α : Type} (d : List (String × α)) (k : String)
    (v v' : α) : dictSet (dictSet d k v) k v' = dictSet d k v' := by
  induction d with
  | nil => simp [dictSet]
  | cons p rest ih =>
      obtain ⟨k0, v0⟩ := p
      by_cases h0 : k0 = k
      · simp [dictSet, h0]
      · simp [dictSet, h0, ih]

/-- Re-writing a key with the value it already holds leaves the dict
unchanged. -/
theorem dictSet_of_find_eq {α : Type} {d : List (String × α)} {k : String}
    {v : α} (h : dictFind d k = some v) : dictSet d k v = d := by
  induction d with
  | nil => simp [dictFind] at h
  | cons p rest ih =>
      obtain ⟨k0, v0⟩ := p
      by_cases h0 : k0 = k
      · simp [dictFind, h0] at h
        simp [dictSet, h0, h]
      · simp [dictFind, h0] at h
        simp [dictSet, h0, ih h]

/-- A `setdefault` never disturbs a binding that is already present, no matter
which key it targets. -/
theorem dictFind_setdefault_of_find {α : Type} {d : List (String × α)}
    {k : String} {v : α} (h : dictFind d k = some v) (k' : String) (v' : α) :
    dictFind (setdefault d k' v') k = some v := by
  unfold setdefault
  cases hf : dictFind d k' with
  | some w => simpa [hf] using h
  | none => simpa [hf] using dictFind_append_left h [(k', v')]

theorem setdefault_of_find {α : Type} {d : List (String × α)} {k : String}
    {v : α} (h : dictFind d k = some v) (v' : α) : setdefault d k v' = d := by
  unfold setdefault
  simp [h]

/-- Bindings already present survive the whole tag-statement sequence,
whether or not it aborts. -/
theorem dictFind_applyTagSteps_of_find
    (steps : List (String × Except String String)) {t : EventDict}
    {k : String} {v : String} (h : dictFind t k = some v) :
    dictFind (applyTagSteps steps t).1 k = some v := by
  induction steps generalizing t with
  | nil => simpa [applyTagSteps] using h
  | cons p rest ih =>
      obtain ⟨k', r⟩ := p
      cases r with
      | error e => simpa [applyTagSteps] using h
      | ok v' =>
          simpa [applyTagSteps] using ih (dictFind_setdefault_of_find h k' v')

/-- Whatever the read outcomes, enrichment never disturbs a user id, a tag, or
an extra entry that the event already carried. -/
theorem enrich_event_preserves (sc : SessionReads) (e0 : SparkEvent) :
    (∀ u v, e0.user = some u → dictFind u "id" = some v →
      ∃ u', (enrich_event sc e0).user = some u' ∧ dictFind u' "id" = some v)
    ∧ (∀ t k v, e0.tags = some t → dictFind t k = some v →
      ∃ t', (enrich_event sc e0).tags = some t' ∧ dictFind t' k = some v)
    ∧ (∀ x v, e0.extra = some x → dictFind x "web_url" = some v →
      ∃ x', (enrich_event sc e0).extra = some x' ∧
        dictFind x' "web_url" = some v) := by
  rcases hsu : sc.sparkUser with esu | uid
  · refine ⟨fun u v hu hv => ?_, fun t k v ht hv => ?_, fun x v hx hv => ?_⟩
    · exact ⟨u, by simp [enrich_event, hsu, hu], hv⟩
    · exact ⟨t, by simp [enrich_event, hsu, ht], hv⟩
    · exact ⟨x, by simp [enrich_event, hsu, hx], hv⟩
  · rcases hex : sc.executorId with eex | exid
    · refine ⟨fun u v hu hv => ?_, fun t k v ht hv => ?_,
        fun x v hx hv => ?_⟩
      · exact ⟨setdefault u "id" uid, by simp [enrich_event, hsu, hex, hu],
          dictFind_setdefault_of_find hv "id" uid⟩
      · exact ⟨t, by simp [enrich_event, hsu, hex, ht], hv⟩
      · exact ⟨x, by simp [enrich_event, hsu, hex, hx], hv⟩
    · rcases hts : applyTagSteps (tagSteps sc)
        (setdefault (e0.tags.getD []) "executor.id" exid) with ⟨t2, ab⟩
      have htags : ∀ t k v, e0.tags = some t → dictFind t k = some v →
          dictFind t2 k = some v := by
        intro t k v ht hv
        have h1 : dictFind (setdefault (e0.tags.getD []) "executor.id" exid)
            k = some v := by
          rw [ht]
          exact dictFind_setdefault_of_find hv "executor.id" exid
        have := dictFind_applyTagSteps_of_find (tagSteps sc) h1
        rwa [hts] at this
      cases ab with
      | true =>
          refine ⟨fun u v hu hv => ?_, fun t k v ht hv => ?_,
            fun x v hx hv => ?_⟩
          · exact ⟨setdefault u "id" uid,
              by simp [enrich_event, hsu, hex, hts, hu],
              dictFind_setdefault_of_find hv "id" uid⟩
          · exact ⟨t2, by simp [enrich_event, hsu, hex, hts],
              htags t k v ht hv⟩
          · exact ⟨x, by simp [enrich_event, hsu, hex, hts, hx], hv⟩
      | false =>
          rcases hui : sc.uiWebUrl with eui | w
          · refine ⟨fun u v hu hv => ?_, fun t k v ht hv => ?_,
              fun x v hx hv => ?_⟩
            · exact ⟨setdefault u "id" uid,
                by simp [enrich_event, hsu, hex, hts, hui, hu],
                dictFind_setdefault_of_find hv "id" uid⟩
            · exact ⟨t2, by simp [enrich_event, hsu, hex, hts, hui],
                htags t k v ht hv⟩
            · exact ⟨x, by simp [enrich_event, hsu, hex, hts, hui, hx], hv⟩
          · refine ⟨fun u v hu hv => ?_, fun t k v ht hv => ?_,
              fun x v hx hv => ?_⟩
            · exact ⟨setdefault u "id" uid,
                by simp [enrich_event, hsu, hex, hts, hui, hu],
                dictFind_setdefault_of_find hv "id" uid⟩
            · exact ⟨t2, by simp [enrich_event, hsu, hex, hts, hui],
                htags t k v ht hv⟩
            · exact ⟨setdefault x "web_url" w,
                by simp [enrich_event, hsu, hex, hts, hui, hx],
                dictFind_setdefault_of_find hv "web_url" w⟩

/-! ## Claims -/

/-- Claim C3: for every jobId and jobResult, `onJobEnd` emits exactly one
breadcrumb whose data is the single entry `result ↦ jobResult`; the breadcrumb
has level `info` and message `Job {jobId} Ended` exactly when
`jobResult = "JobSucceeded"`, and otherwise level `warning` and message
`Job {jobId} Failed`. -/
theorem c3_onJobEnd_breadcrumb (e : JobEndEvent) :
    onJobEnd e =
      [{ level := if e.jobResult = "JobSucceeded" then "info" else "warning"
         message := "Job " ++ toString e.jobId ++
           (if e.jobResult = "JobSucceeded" then " Ended" else " Failed")
         data := [("result", DataVal.str e.jobResult)] }] := by
  unfold onJobEnd
  by_cases h : e.jobResult = "JobSucceeded" <;> simp [h]

/-- Claim C4: `onStageCompleted` emits exactly one breadcrumb; on the
empty-option signal it is level `info`, message `Stage {stageId} Completed`,
with data exactly attemptId and name and no `reason` key; when the read
yields a reason `r` it is level `warning`, message `Stage {stageId} Failed`,
with data attemptId, name and `reason ↦ r`. -/
theorem c4_onStageCompleted_breadcrumb (si : StageInfo) :
    (si.failureReasonRead = ReasonRead.noSuchElement →
      onStageCompleted si =
        Except.ok [{ level := "info"
                     message := "Stage " ++ toString si.stageId ++ " Completed"
                     data := [("attemptId", DataVal.nat si.attemptId),
                              ("name", DataVal.str si.name)] }])
    ∧ (∀ r, si.failureReasonRead = ReasonRead.ok r →
      onStageCompleted si =
        Except.ok [{ level := "warning"
                     message := "Stage " ++ toString si.stageId ++ " Failed"
                     data := [("attemptId", DataVal.nat si.attemptId),
                              ("name", DataVal.str si.name),
                              ("reason", DataVal.str r)] }]) := by
  constructor
  · intro h
    simp [onStageCompleted, h, isPy4JJavaError]
  · intro r h
    simp [onStageCompleted, h, dictSet]

/-- Claim C4 witness at a concrete stage. -/
theorem c4_witness :
    onStageCompleted
        { stageId := 9, attemptId := 2, name := "collect"
          failureReasonRead := ReasonRead.noSuchElement } =
      Except.ok [{ level := "info"
                   message := "Stage 9 Completed"
                   data := [("attemptId", DataVal.nat 2),
                            ("name", DataVal.str "collect")] }] :=
  (c4_onStageCompleted_breadcrumb
    { stageId := 9, attemptId := 2, name := "collect"
      failureReasonRead := ReasonRead.noSuchElement }).1 rfl

/-- Claim C2, counterexample: a JVM-side exception that is not the
empty-option signal (`otherJavaError`) does not propagate out of the handler;
it is caught by the `except Py4JJavaError` clause and the stage is reported
as Completed. -/
theorem c2_counterexample :
    onStageCompleted
        { stageId := 3, attemptId := 0, name := "stage-3"
          failureReasonRead := ReasonRead.otherJavaError } =
      Except.ok [{ level := "info"
                   message := "Stage 3 Completed"
                   data := [("attemptId", DataVal.nat 0),
                            ("name", DataVal.str "stage-3")] }] := by
  rfl

/-- Claim C2 amended: the completed-without-reason branch is selected exactly
when the read raises an exception of the `Py4JJavaError` class — which
carries the empty-option signal but also any other JVM-side error — while a
failure outside that class (for example a bridge transport fault) propagates
out of the handler. -/
theorem c2_amended_catch_class (si : StageInfo) :
    (onStageCompleted si =
        Except.ok [{ level := "info"
                     message := "Stage " ++ toString si.stageId ++ " Completed"
                     data := [("attemptId", DataVal.nat si.attemptId),
                              ("name", DataVal.str si.name)] }]
      ↔ isPy4JJavaError si.failureReasonRead = true)
    ∧ (isPy4JJavaError si.failureReasonRead = false →
        (∀ r, si.failureReasonRead ≠ ReasonRead.ok r) →
        onStageCompleted si = Except.error si.failureReasonRead) := by
  cases h : si.failureReasonRead with
  | ok r =>
      constructor
      · simp [onStageCompleted, h, dictSet, isPy4JJavaError]
      · intro _ habs
        exact absurd rfl (habs r)
  | noSuchElement =>
      exact ⟨by simp [onStageCompleted, h, isPy4JJavaError],
        by intro hh _; simp [isPy4JJavaError] at hh⟩
  | otherJavaError =>
      exact ⟨by simp [onStageCompleted, h, isPy4JJavaError],
        by intro hh _; simp [isPy4JJavaError] at hh⟩
  | bridgeError =>
      exact ⟨by simp [onStageCompleted, h, isPy4JJavaError],
        fun _ _ => by simp [onStageCompleted, h, isPy4JJavaError]⟩

/-- Claim C2 amended, witness: a bridge-level failure propagates. -/
theorem c2_amended_witness :
    onStageCompleted
        { stageId := 5, attemptId := 1, name := "shuffle"
          failureReasonRead := ReasonRead.bridgeError } =
      Except.error ReasonRead.bridgeError :=
  (c2_amended_catch_class
    { stageId := 5, attemptId := 1, name := "shuffle"
      failureReasonRead := ReasonRead.bridgeError }).2 rfl
    (fun _ h => ReasonRead.noConfusion h)

/-- Claim C1 (the code as written): `_activate_integration` carries no guard,
so calling it twice for the same session registers the `SentryListener` twice
and installs the event processor twice, contradicting the required
at-most-once invariant. -/
theorem c1_activation_not_idempotent :
    (activate_integration (some { appName := "myapp", applicationId := "app-1" })
        (activate_integration
          (some { appName := "myapp", applicationId := "app-1" })
          { listeners := 0, props := [], processors := 0 })).listeners = 2
    ∧ (activate_integration
          (some { appName := "myapp", applicationId := "app-1" })
        (activate_integration
          (some { appName := "myapp", applicationId := "app-1" })
          { listeners := 0, props := [], processors := 0 })).processors = 2 :=
  ⟨rfl, rfl⟩

/-- Claim C9: with an active context, `_set_app_properties` writes exactly the
two keys `sentry_app_name ↦ appName` and `sentry_application_id ↦
applicationId` and leaves every other key untouched; with no active context
it performs no writes; and it is idempotent. -/
theorem c9_set_app_properties (active : Option AppInfo) (st : PropStore) :
    (∀ c, active = some c →
      dictFind (set_app_properties active st) "sentry_app_name" =
          some c.appName
      ∧ dictFind (set_app_properties active st) "sentry_application_id" =
          some c.applicationId
      ∧ ∀ k, k ≠ "sentry_app_name" → k ≠ "sentry_application_id" →
          dictFind (set_app_properties active st) k = dictFind st k)
    ∧ (active = none → set_app_properties active st = st)
    ∧ set_app_properties active (set_app_properties active st) =
        set_app_properties active st := by
  cases active with
  | none => exact ⟨fun c h => Option.noConfusion h, fun _ => rfl, rfl⟩
  | some c =>
      have hne : "sentry_app_name" ≠ "sentry_application_id" := by decide
      refine ⟨fun c' hc => ?_, fun h => Option.noConfusion h, ?_⟩
      · obtain rfl : c = c' := by injection hc
        refine ⟨?_, ?_, ?_⟩
        · rw [show set_app_properties (some c) st =
            dictSet (dictSet st "sentry_app_name" c.appName)
              "sentry_application_id" c.applicationId from rfl]
          rw [dictFind_dictSet_of_ne _ _ hne, dictFind_dictSet_self]
        · exact dictFind_dictSet_self _ _ _
        · intro k h1 h2
          rw [show set_app_properties (some c) st =
            dictSet (dictSet st "sentry_app_name" c.appName)
              "sentry_application_id" c.applicationId from rfl]
          rw [dictFind_dictSet_of_ne _ _ h2, dictFind_dictSet_of_ne _ _ h1]
      · have h1 : dictFind (set_app_properties (some c) st) "sentry_app_name" =
            some c.appName := by
          rw [show set_app_properties (some c) st =
            dictSet (dictSet st "sentry_app_name" c.appName)
              "sentry_application_id" c.applicationId from rfl]
          rw [dictFind_dictSet_of_ne _ _ hne, dictFind_dictSet_self]
        have h2 : dictFind (set_app_properties (some c) st)
            "sentry_application_id" = some c.applicationId :=
          dictFind_dictSet_self _ _ _
        show dictSet (dictSet (set_app_properties (some c) st)
            "sentry_app_name" c.appName) "sentry_application_id"
            c.applicationId = set_app_properties (some c) st
        rw [dictSet_of_find_eq h1, dictSet_of_find_eq h2]

/-- Claim C9 witness at a concrete context and empty store. -/
theorem c9_witness :
    dictFind (set_app_properties
        (some { appName := "app", applicationId := "app-2024" }) [])
        "sentry_app_name" = some "app"
    ∧ set_app_properties (some { appName := "app", applicationId := "app-2024" })
        (set_app_properties
          (some { appName := "app", applicationId := "app-2024" }) []) =
      set_app_properties
        (some { appName := "app", applicationId := "app-2024" }) [] :=
  ⟨((c9_set_app_properties
      (some { appName := "app", applicationId := "app-2024" }) []).1
      { appName := "app", applicationId := "app-2024" } rfl).1,
   (c9_set_app_properties
      (some { appName := "app", applicationId := "app-2024" }) []).2.2⟩

/-- Claim C8: the patched `_do_init` runs the original initialization first
and activates only on its success, returning the original's value; a fault of
the original or of the activation propagates unchanged; and on an
initialization fault the result does not depend on the activation at all (no
activation side effect occurs). -/
theorem c8_patched_init (origResult : Except String (Option String))
    (activate : BridgeState → Except String BridgeState) (st : BridgeState) :
    (∀ rv st', origResult = Except.ok rv → activate st = Except.ok st' →
      sentry_patched_spark_context_init true origResult activate st =
        Except.ok (rv, st'))
    ∧ (∀ e, origResult = Except.error e →
      sentry_patched_spark_context_init true origResult activate st =
        Except.error e)
    ∧ (∀ rv e, origResult = Except.ok rv → activate st = Except.error e →
      sentry_patched_spark_context_init true origResult activate st =
        Except.error e) := by
  refine ⟨fun rv st' h1 h2 => ?_, fun e h1 => ?_, fun rv e h1 h2 => ?_⟩
  · simp [sentry_patched_spark_context_init, h1, h2]
  · simp [sentry_patched_spark_context_init, h1]
  · simp [sentry_patched_spark_context_init, h1, h2]

/-- Claim C8 witness: a successful original init followed by the concrete
`_activate_integration` on a fresh state. -/
theorem c8_witness :
    sentry_patched_spark_context_init true (Except.ok none)
        (fun s => Except.ok (activate_integration
          (some { appName := "app", applicationId := "app-1" }) s))
        { listeners := 0, props := [], processors := 0 } =
      Except.ok (none, activate_integration
        (some { appName := "app", applicationId := "app-1" })
        { listeners := 0, props := [], processors := 0 }) :=
  (c8_patched_init (Except.ok none)
      (fun s => Except.ok (activate_integration
        (some { appName := "app", applicationId := "app-1" }) s))
      { listeners := 0, props := [], processors := 0 }).1 none _ rfl rfl

/-- Claim C6: when the integration is disabled or no context is active, the
processor returns the event unchanged and raises nothing. -/
theorem c6_processor_passthrough (en ac : Bool) (sc : SessionReads)
    (ev : SparkEvent) (h : en = false ∨ ac = false) :
    process_event en ac sc ev = some ev := by
  unfold process_event
  rcases h with h | h
  · simp [h]
  · cases en <;> simp [h]

/-- Claim C6 witness: disabled integration, dead session, nonempty event. -/
theorem c6_witness :
    process_event false true sessionAllFail eventAppNameX =
      some eventAppNameX :=
  c6_processor_passthrough false true sessionAllFail eventAppNameX
    (Or.inl rfl)

/-- Claim C10: on every input the processor returns `some` event — never
`None` — whatever the integration flag, context presence, or read outcomes. -/
theorem c10_processor_never_none (en ac : Bool) (sc : SessionReads)
    (ev : SparkEvent) : (process_event en ac sc ev).isSome = true := by
  unfold process_event
  cases en <;> cases ac <;> simp

/-- Claim C5: enrichment uses set-if-absent semantics everywhere: a
pre-existing user id, any pre-existing tag (in particular each of the nine
spark tags), and a pre-existing `extra.web_url` all survive the processor
unchanged. -/
theorem c5_enrichment_preserves_existing (en ac : Bool) (sc : SessionReads)
    (ev ev' : SparkEvent) (h : process_event en ac sc ev = some ev') :
    (∀ u v, ev.user = some u → dictFind u "id" = some v →
      ∃ u', ev'.user = some u' ∧ dictFind u' "id" = some v)
    ∧ (∀ t k v, ev.tags = some t → dictFind t k = some v →
      ∃ t', ev'.tags = some t' ∧ dictFind t' k = some v)
    ∧ (∀ x v, ev.extra = some x → dictFind x "web_url" = some v →
      ∃ x', ev'.extra = some x' ∧ dictFind x' "web_url" = some v) := by
  unfold process_event at h
  by_cases hen : en = false
  · rw [if_pos hen] at h
    obtain rfl : ev = ev' := by injection h
    exact ⟨fun u v hu hv => ⟨u, hu, hv⟩, fun t k v ht hv => ⟨t, ht, hv⟩,
      fun x v hx hv => ⟨x, hx, hv⟩⟩
  · rw [if_neg hen] at h
    by_cases hac : ac = false
    · rw [if_pos hac] at h
      obtain rfl : ev = ev' := by injection h
      exact ⟨fun u v hu hv => ⟨u, hu, hv⟩, fun t k v ht hv => ⟨t, ht, hv⟩,
        fun x v hx hv => ⟨x, hx, hv⟩⟩
    · rw [if_neg hac] at h
      obtain rfl : enrich_event sc ev = ev' := by injection h
      exact enrich_event_preserves sc ev

/-- Claim C5 witness: the tag `app_name ↦ X` survives enrichment against an
active session whose application name is `Y`. -/
theorem c5_witness :
    ∃ t', (enrich_event sessionY eventAppNameX).tags = some t'
      ∧ dictFind t' "app_name" = some "X" :=
  (c5_enrichment_preserves_existing true true sessionY eventAppNameX
      (enrich_event sessionY eventAppNameX) rfl).2.1
    [("app_name", "X")] "app_name" "X" rfl rfl

/-- Claim C7: an exception while reading a session attribute is contained:
the processor still returns the event (first conjunct), and concretely, when
the user read has succeeded and the following executor-id read raises, the
event is returned with the user id already enriched, the tags section created
but empty, and the extras untouched (second conjunct). -/
theorem c7_error_contained (sc : SessionReads) (ev : SparkEvent) :
    (process_event true true sc ev).isSome = true
    ∧ (∀ u e, sc.sparkUser = Except.ok u → sc.executorId = Except.error e →
        process_event true true sc ev =
          some { user := some (setdefault (ev.user.getD []) "id" u)
                 tags := some (ev.tags.getD [])
                 extra := ev.extra }) := by
  constructor
  · simp [process_event]
  · intro u e hu he
    simp [process_event, enrich_event, hu, he]

/-- Claim C7 witness: user read succeeds, conf read raises, empty event. -/
theorem c7_witness :
    process_event true true sessionUserOnly
        { user := none, tags := none, extra := none } =
      some { user := some [("id", "alice")], tags := some [], extra := none } :=
  (c7_error_contained sessionUserOnly
      { user := none, tags := none, extra := none }).2 "alice" "gone" rfl rfl

end SparkDriver
